import Mathlib

/-!
Shallow embedding of `src/lib/plugin_stream_mapper.py` (class `PluginStreamMapper`)
from the `plugin.video_transcoder` repository, together with proofs of the
specification claims about it.

The Python methods are modelled as pure functions threading the mapper state
explicitly.  Collaborators that live outside the `src/` tree of this repository
(the encoder profile classes, `tools.image_video_codecs`, the black-bar
detector, and the `StreamMapper` base-class option accumulators) are modelled
from the spec, as marked in their doc comments.
-/

namespace VideoTranscoder

/-- The settings key-value store (spec §3), one field per recognized key.
`get_setting` calls in the source become field projections. -/
structure Settings where
  mode : String
  main_options : String
  advanced_options : String
  custom_options : String
  video_encoder : String
  max_muxing_queue_size : String
  apply_smart_filters : Bool
  autocrop_black_bars : Bool
  apply_custom_filters : Bool
  custom_software_filters : String
  deriving Repr, DecidableEq

/-- Split a character list at every separator character, keeping empty
pieces (the semantics of splitting a string on single characters). -/
def splitCharsAux (p : Char → Bool) : List Char → List Char → List (List Char)
  | [], acc => [acc.reverse]
  | c :: cs, acc =>
    if p c then acc.reverse :: splitCharsAux p cs []
    else splitCharsAux p cs (c :: acc)

/-- Split a string at every character satisfying `p`, keeping empty pieces. -/
def pySplit (s : String) (p : Char → Bool) : List String :=
  (splitCharsAux p s.data []).map String.mk

/-- Python `str.lower()`. -/
def pyLower (s : String) : String :=
  String.mk (s.data.map Char.toLower)

/-- Python `str.strip()`: drop whitespace from both ends. -/
def pyStrip (s : String) : String :=
  String.mk (((s.data.dropWhile Char.isWhitespace).reverse.dropWhile Char.isWhitespace).reverse)

/-- Python `str.split()` with no argument: split on whitespace, dropping
empty tokens. -/
def splitWhitespace (s : String) : List String :=
  (pySplit s Char.isWhitespace).filter (fun t => t ≠ "")

/-- Python `str.splitlines()` as used on `custom_software_filters` (the source
filters each line through `.strip()` afterwards, so trailing-empty-line
differences are immaterial). -/
def splitlines (s : String) : List String :=
  pySplit s (fun c => c = '\n')

/-- Modelled from the spec: `tools.image_video_codecs` (the `tools` module is
not under `src/`): the fixed set of "image" video codec names (embedded
cover-art codecs), stored lowercase.  Representative members. -/
def image_video_codecs : List String :=
  ["mjpeg", "png", "gif", "bmp", "tiff"]

/-- Modelled from the spec: `LibxEncoder.encoders` (the encoder profile
modules are not under `src/`): the names of the software encoder group. -/
def LibxEncoder.encoders : List String := ["libx264", "libx265"]

/-- Modelled from the spec: `QsvEncoder.encoders`: the names of the hardware-QSV encoder
group (disjoint from the other groups per spec §3). -/
def QsvEncoder.encoders : List String := ["h264_qsv", "hevc_qsv"]

/-- Modelled from the spec: `VaapiEncoder.encoders`: the hardware-VAAPI
encoder group names.  Per spec §4.4 this is the same disjoint-group lookup
as §4.1, whose VAAPI test uses the `vaapi_encoders` list of the mapper itself
(source line 44), so the set is `{hevc_vaapi, h264_vaapi}`. -/
def VaapiEncoder.encoders : List String := ["hevc_vaapi", "h264_vaapi"]

/-- `self.vaapi_encoders`, fixed in `PluginStreamMapper.__init__`
(source line 44). -/
def vaapi_encoders : List String := ["hevc_vaapi", "h264_vaapi"]

/-- Modelled from the spec: `QsvEncoder.generate_filtergraphs()`: the fixed
filtergraph fragment list required for QSV encoding. -/
def QsvEncoder.generate_filtergraphs : List String :=
  ["hwupload=extra_hw_frames=64,format=qsv"]

/-- Modelled from the spec: `VaapiEncoder.generate_filtergraphs()`: the fixed
filtergraph fragment list required for VAAPI encoding (a single fragment, per
spec §8 property 7). -/
def VaapiEncoder.generate_filtergraphs : List String :=
  ["format=nv12|vaapi,hwupload"]

/-- Modelled from the spec: `LibxEncoder.generate_default_args(...)`:
(generic args map, advanced args map) for the software group. -/
def LibxEncoder.generate_default_args : List (String × String) × List (String × String) :=
  ([], [])

/-- Modelled from the spec: `QsvEncoder.generate_default_args(...)`. -/
def QsvEncoder.generate_default_args : List (String × String) × List (String × String) :=
  ([("-hwaccel", "qsv")], [])

/-- Modelled from the spec: `VaapiEncoder.generate_default_args(...)` with
hardware decoding enabled. -/
def VaapiEncoder.generate_default_args : List (String × String) × List (String × String) :=
  ([("-hwaccel", "vaapi"), ("-hwaccel_device", "/dev/dri/renderD128")], [])

/-- Modelled from the spec: `LibxEncoder(settings).args(stream_id)`: the
per-stream encoder tuning arguments for the software group. -/
def LibxEncoder.args (stream_id : Nat) : List String :=
  ["-crf:v:" ++ toString stream_id, "23"]

/-- Modelled from the spec: `QsvEncoder(settings).args(stream_id)`. -/
def QsvEncoder.args (stream_id : Nat) : List String :=
  ["-global_quality:v:" ++ toString stream_id, "23"]

/-- Modelled from the spec: `VaapiEncoder(settings).args(stream_id)`. -/
def VaapiEncoder.args (stream_id : Nat) : List String :=
  ["-qp:v:" ++ toString stream_id, "23"]

/-- State of one `PluginStreamMapper` instance.  `crop_value` uses `""` for
the falsy Python `None`/empty detector result.  The `main_tokens` /
`advanced_tokens` baseline argument lists and the `generic_kv` /
`advanced_kv` keyword-argument maps are the `StreamMapper` base-class
accumulators, modelled from the spec (§4.1, §9: two ordered maps with a
last-write-wins merge). -/
structure Mapper where
  abspath : Option String
  settings : Settings
  crop_value : String
  main_tokens : List String
  advanced_tokens : List String
  generic_kv : List (String × String)
  advanced_kv : List (String × String)
  deriving Repr, DecidableEq

/-- Last-write-wins update of one key in an ordered argument map
(modelled from the spec, §4.1). -/
def setKV (m : List (String × String)) (k v : String) : List (String × String) :=
  (m.filter (fun p => p.1 ≠ k)) ++ [(k, v)]

/-- Merge a keyword-argument map into an accumulator, last-write-wins. -/
def setManyKV (m : List (String × String)) (kvs : List (String × String)) :
    List (String × String) :=
  kvs.foldl (fun acc p => setKV acc p.1 p.2) m

/-- Modelled from the spec: `self.set_ffmpeg_generic_options(**kwargs)`
(base-class accumulator merge). -/
def set_ffmpeg_generic_options (st : Mapper) (kvs : List (String × String)) : Mapper :=
  { st with generic_kv := setManyKV st.generic_kv kvs }

/-- Modelled from the spec: `self.set_ffmpeg_advanced_options(**kwargs)`. -/
def set_ffmpeg_advanced_options (st : Mapper) (kvs : List (String × String)) : Mapper :=
  { st with advanced_kv := setManyKV st.advanced_kv kvs }

/-- The encoder-group dispatch at source lines 95-106: look up the group of
`video_encoder` (Libx, then QSV, then the `vaapi_encoders`
list of the mapper itself) and merge that profile default generic/advanced argument maps. -/
def applyEncoderDefaultArgs (s : Settings) (st : Mapper) : Mapper :=
  if s.video_encoder ∈ LibxEncoder.encoders then
    set_ffmpeg_advanced_options
      (set_ffmpeg_generic_options st LibxEncoder.generate_default_args.1)
      LibxEncoder.generate_default_args.2
  else if s.video_encoder ∈ QsvEncoder.encoders then
    set_ffmpeg_advanced_options
      (set_ffmpeg_generic_options st QsvEncoder.generate_default_args.1)
      QsvEncoder.generate_default_args.2
  else if s.video_encoder ∈ vaapi_encoders then
    set_ffmpeg_advanced_options
      (set_ffmpeg_generic_options st VaapiEncoder.generate_default_args.1)
      VaapiEncoder.generate_default_args.2
  else st

/-- `PluginStreamMapper.set_default_values(settings, abspath, probe)`
(source lines 46-108).  The black-bar detector `tools.detect_plack_bars` is
an external collaborator; its result for this file is passed in as
`detected_crop` (empty string for a falsy "no crop" result).  The probe is
only stored, never read by the modelled logic, so it is omitted. -/
def set_default_values (st : Mapper) (s : Settings) (abspath : String)
    (detected_crop : String) : Mapper :=
  let st0 := { st with abspath := some abspath, settings := s }
  if s.mode = "advanced" then
    let mo := splitWhitespace s.main_options
    let st1 := if mo ≠ [] then { st0 with main_tokens := mo } else st0
    let ao := splitWhitespace s.advanced_options
    if ao ≠ [] then { st1 with advanced_tokens := ao } else st1
  else
    let st1 :=
      if s.mode = "standard" then
        let st2 :=
          if s.max_muxing_queue_size ≠ "" then
            set_ffmpeg_advanced_options st0
              [("-max_muxing_queue_size", s.max_muxing_queue_size)]
          else st0
        if s.apply_smart_filters && s.autocrop_black_bars then
          { st2 with crop_value := detected_crop }
        else st2
      else st0
    applyEncoderDefaultArgs s st1

/-- The software-filter list assembled at source lines 119-129: an optional
`crop=` filter (smart filters + autocrop + truthy crop value), then each
non-blank stripped line of `custom_software_filters`. -/
def softwareFiltersOf (s : Settings) (crop_value : String) : List String :=
  (if s.apply_smart_filters && (s.autocrop_black_bars && (crop_value ≠ "" : Bool)) then
    ["crop=" ++ crop_value]
  else []) ++
  (if s.apply_custom_filters then
    (splitlines s.custom_software_filters).filterMap
      (fun line => if pyStrip line ≠ "" then some (pyStrip line) else none)
  else [])

/-- The hardware-filter list from the encoder-group dispatch at source
lines 131-137. -/
def hardwareFiltersOf (s : Settings) : List String :=
  if s.video_encoder ∈ QsvEncoder.encoders then QsvEncoder.generate_filtergraphs
  else if s.video_encoder ∈ vaapi_encoders then VaapiEncoder.generate_filtergraphs
  else []

/-- The filter id written for the filter generated at counter value `n`:
`0:vf:{stream_id}-{n}` (source lines 161 and 174). -/
def vfLabel (stream_id n : Nat) : String :=
  "0:vf:" ++ toString stream_id ++ "-" ++ toString n

/-- One pass of the filtergraph-joining loop (source lines 152-177): the
accumulator is (filtergraph so far, current filter id, counter); each
filter appends `;` when the graph is non-empty, then
`[{filter_id}]{filter}[{new filter_id}]`, where the new filter id is
`0:vf:{stream_id}-{count}`.  The source runs this loop once over the
software filters and once more over the hardware filters with the carried
accumulator. -/
def chainFold (stream_id : Nat) : List String → String × String × Nat → String × String × Nat
  | [], acc => acc
  | f :: fs, (filtergraph, filter_id, count) =>
    let g0 := if filtergraph ≠ "" then filtergraph ++ ";" else filtergraph
    let g1 := g0 ++ "[" ++ filter_id ++ "]" ++ f
    let fid := vfLabel stream_id count
    chainFold stream_id fs (g1 ++ "[" ++ fid ++ "]", fid, count + 1)

/-- `PluginStreamMapper.build_filter_chain(stream_id)` (source lines
110-179).  The Python `(None, None)` return is `none`; a `(filter_id,
filtergraph)` return is `some (filter_id, filtergraph)`.  The
`-hwaccel_output_format=nv12` generic option is set exactly when the
VAAPI `elif` branch is taken (encoder not in the QSV group, in
`vaapi_encoders`) and the software-filter list is non-empty
(source lines 138-141). -/
def build_filter_chain (st : Mapper) (stream_id : Nat) :
    Mapper × Option (String × String) :=
  let s := st.settings
  let filter_id : String := "0:v:" ++ toString stream_id
  let software_filters := softwareFiltersOf s st.crop_value
  let hardware_filters := hardwareFiltersOf s
  let st1 :=
    if s.video_encoder ∉ QsvEncoder.encoders ∧ s.video_encoder ∈ vaapi_encoders ∧
        software_filters ≠ [] then
      set_ffmpeg_generic_options st [("-hwaccel_output_format", "nv12")]
    else st
  if software_filters = [] ∧ hardware_filters = [] then (st1, none)
  else
    let r := chainFold stream_id hardware_filters
      (chainFold stream_id software_filters ("", filter_id, 1))
    (st1, some (r.2.1, r.1))

/-- Per-stream probe metadata: the `codec_name` entry of the `stream_info`
dict (`none` when the key is missing). -/
structure StreamInfo where
  codec_name : Option String
  deriving Repr, DecidableEq

/-- `PluginStreamMapper.test_stream_needs_processing(stream_info)` (source
lines 181-197).  `dict.get` yields `None` for a missing key and `.lower()`
on `None` raises, so the missing-key case is the error result `none`. -/
def test_stream_needs_processing (stream_info : StreamInfo) : Option Bool :=
  match stream_info.codec_name with
  | none => none
  | some c => if pyLower c ∈ image_video_codecs then some false else some true

/-- The per-stream result dict returned by `custom_stream_mapping`. -/
structure MappingResult where
  stream_mapping : List String
  stream_encoding : List String
  deriving Repr, DecidableEq

/-- `PluginStreamMapper.custom_stream_mapping(stream_info, stream_id)`
(source lines 199-239), returning the updated mapper state and the result
dict.  `stream_info` is unused by the source body. -/
def custom_stream_mapping (st : Mapper) (stream_id : Nat) : Mapper × MappingResult :=
  let s := st.settings
  let stream_specifier := "v:" ++ toString stream_id
  let map_identifier := "0:" ++ stream_specifier
  if s.mode = "advanced" then
    (st, { stream_mapping := ["-map", map_identifier],
           stream_encoding := ["-c:" ++ stream_specifier, s.video_encoder] ++
             splitWhitespace s.custom_options })
  else
    let built := build_filter_chain st stream_id
    let st1 := built.1
    let next :=
      match built.2 with
      | some (filter_id, filter_complex) =>
        if filter_complex ≠ "" then
          (set_ffmpeg_advanced_options st1 [("-filter_complex", filter_complex)],
           "[" ++ filter_id ++ "]")
        else (st1, map_identifier)
      | none => (st1, map_identifier)
    let base := ["-c:" ++ stream_specifier, s.video_encoder]
    let stream_encoding :=
      if s.video_encoder ∈ LibxEncoder.encoders then base ++ LibxEncoder.args stream_id
      else if s.video_encoder ∈ QsvEncoder.encoders then base ++ QsvEncoder.args stream_id
      else if s.video_encoder ∈ VaapiEncoder.encoders then base ++ VaapiEncoder.args stream_id
      else base
    (next.1, { stream_mapping := ["-map", next.2], stream_encoding := stream_encoding })

/-- The four mutually exclusive encoder groups of the Encoder Registry
(spec §3). -/
inductive EncoderGroup where
  | software
  | qsv
  | vaapi
  | unknown
  deriving Repr, DecidableEq

/-- The disjoint-group membership lookup as performed by
`set_default_values` (source lines 95-106): Libx first, then QSV, then the
`vaapi_encoders` list of the mapper itself. -/
def encoderGroupForDefaults (enc : String) : EncoderGroup :=
  if enc ∈ LibxEncoder.encoders then .software
  else if enc ∈ QsvEncoder.encoders then .qsv
  else if enc ∈ vaapi_encoders then .vaapi
  else .unknown

/-- The group membership lookup as performed by `custom_stream_mapping` when
selecting the per-stream argument generator (source lines 226-234): Libx
first, then QSV, then `VaapiEncoder.encoders`. -/
def encoderGroupForMapping (enc : String) : EncoderGroup :=
  if enc ∈ LibxEncoder.encoders then .software
  else if enc ∈ QsvEncoder.encoders then .qsv
  else if enc ∈ VaapiEncoder.encoders then .vaapi
  else .unknown

/- Sample concrete states used by the witness theorems. -/

/-- A baseline settings value for witnesses. -/
def baseSettings : Settings :=
  { mode := "standard"
    main_options := ""
    advanced_options := ""
    custom_options := ""
    video_encoder := "libx265"
    max_muxing_queue_size := ""
    apply_smart_filters := false
    autocrop_black_bars := false
    apply_custom_filters := false
    custom_software_filters := "" }

/-- A freshly initialized mapper state for witnesses. -/
def baseMapper : Mapper :=
  { abspath := none
    settings := baseSettings
    crop_value := ""
    main_tokens := []
    advanced_tokens := []
    generic_kv := []
    advanced_kv := [] }

/-- A mapper configured for advanced mode with custom options, used by the
C6 witness. -/
def advMapper : Mapper :=
  { baseMapper with
    settings :=
      { baseSettings with
        mode := "advanced"
        custom_options := "-preset fast" } }

/-- Advanced-mode settings with main options supplied and advanced options
empty, used by the C5 witness. -/
def advTokenSettings : Settings :=
  { baseSettings with
    mode := "advanced"
    main_options := "-probesize 50M" }

/-- A non-advanced, non-standard mode `""` with a VAAPI encoder and settings
that would trigger crop detection and a muxing-queue argument in standard
mode, used by the C9 witness. -/
def otherModeSettings : Settings :=
  { baseSettings with
    mode := ""
    video_encoder := "hevc_vaapi"
    max_muxing_queue_size := "9999"
    apply_smart_filters := true
    autocrop_black_bars := true }

/-- A mapper that already carries a muxing-queue advanced argument, used by
the C9 witness. -/
def queueMapper : Mapper :=
  { baseMapper with advanced_kv := [("-max_muxing_queue_size", "77")] }

/-- A standard-mode mapper with a VAAPI encoder, a detected crop value, and
one custom software filter: it queues two software filters (crop first,
then the custom line) ahead of the single VAAPI hardware filter. -/
def chainMapper : Mapper :=
  { baseMapper with
    settings :=
      { baseSettings with
        video_encoder := "hevc_vaapi"
        apply_smart_filters := true
        autocrop_black_bars := true
        apply_custom_filters := true
        custom_software_filters := "hqdn3d" }
    crop_value := "1920:800:0:140" }

/-- A standard-mode mapper with a VAAPI encoder and no software filters. -/
def vaapiPlainMapper : Mapper :=
  { baseMapper with
    settings := { baseSettings with video_encoder := "hevc_vaapi" } }

/-- The reading the claim gives of the filtergraph (spec §4.2 step 5): the segment
generated for each filter is `[{currentLabel}]{filterExpr}[{nextLabel}]`,
with the Nth generated filter (numbering global across both lists)
producing label `0:vf:{streamIndex}-{N}`. -/
def specSegments (stream_id : Nat) : String → Nat → List String → List String
  | _, _, [] => []
  | fid, c, f :: fs =>
    ("[" ++ fid ++ "]" ++ f ++ "[" ++ vfLabel stream_id c ++ "]") ::
      specSegments stream_id (vfLabel stream_id c) (c + 1) fs

/-- Join segments with `;`. -/
def joinSemi : List String → String
  | [] => ""
  | [x] => x
  | x :: y :: xs => x ++ ";" ++ joinSemi (y :: xs)

/-- The label carried out of the loop: the input label if no filter is
generated, else the label of the last generated filter. -/
def lastLabel (stream_id : Nat) : String → Nat → List String → String
  | fid, _, [] => fid
  | _, c, _ :: fs => lastLabel stream_id (vfLabel stream_id c) (c + 1) fs

/-- Folding the map-identifier prefix: `"0:" ++ ("v:" ++ t) = "0:v:" ++ t`. -/
theorem zeroV_append (t : String) : "0:" ++ ("v:" ++ t) = "0:v:" ++ t := by
  rw [← String.append_assoc]
  exact congrArg (fun x => x ++ t) (by decide)

/-- Folding the codec-selector prefix: `"-c:" ++ ("v:" ++ t) = "-c:v:" ++ t`. -/
theorem cV_append (t : String) : "-c:" ++ ("v:" ++ t) = "-c:v:" ++ t := by
  rw [← String.append_assoc]
  exact congrArg (fun x => x ++ t) (by decide)

/-- Appending to a non-empty string yields a non-empty string. -/
theorem append_ne_empty_left (s t : String) (h : s ≠ "") : s ++ t ≠ "" := by
  intro he
  apply h
  have hd : s.data ++ t.data = [] := by
    have h2 := congrArg String.data he
    rw [String.data_append] at h2
    exact h2
  apply String.ext
  rw [(List.append_eq_nil.mp hd).1]

/-- Claim C4: a stream whose codec name is (case-insensitively) one of the
image video codecs is never processed (`false`); every other stream is
always transcoded (`true`), regardless of the target codec. -/
theorem test_stream_image_codec_decision (c : String) (info : StreamInfo)
    (h : info.codec_name = some c) :
    (test_stream_needs_processing info = some false ↔ pyLower c ∈ image_video_codecs) ∧
    (test_stream_needs_processing info = some true ↔ pyLower c ∉ image_video_codecs) := by
  by_cases hm : pyLower c ∈ image_video_codecs <;>
    simp [test_stream_needs_processing, h, hm]

/-- Witness for C4 at codec names `MJPEG` (image, mixed case) and `h264`. -/
theorem test_stream_image_codec_decision_witness :
    test_stream_needs_processing ⟨some "MJPEG"⟩ = some false ∧
    test_stream_needs_processing ⟨some "h264"⟩ = some true := by
  constructor
  · exact ((test_stream_image_codec_decision "MJPEG" ⟨some "MJPEG"⟩ rfl).1).mpr (by decide)
  · exact ((test_stream_image_codec_decision "h264" ⟨some "h264"⟩ rfl).2).mpr (by decide)

/-- Claim C10: `test_stream_needs_processing` returns a boolean decision
exactly when the stream info carries a codec name; with the key missing the
call errors (models the `.lower()` on `None` failure) instead of returning a
pass-through decision. -/
theorem test_stream_total_iff_codec_name (info : StreamInfo) :
    (test_stream_needs_processing info).isSome ↔ info.codec_name.isSome := by
  rcases info with ⟨cn⟩
  cases cn with
  | none => simp [test_stream_needs_processing]
  | some c =>
    simp only [test_stream_needs_processing]
    constructor
    · intro; simp
    · intro; split <;> simp

/-- Claim C8: the encoder-group classification used by
`custom_stream_mapping` to pick the per-stream argument generator agrees
with the classification used by `set_default_values`, for every encoder
name; in particular membership in `VaapiEncoder.encoders` agrees with
membership in the `vaapi_encoders` list of the mapper itself. -/
theorem encoder_group_lookup_agrees (enc : String) :
    encoderGroupForMapping enc = encoderGroupForDefaults enc ∧
    (enc ∈ VaapiEncoder.encoders ↔ enc ∈ vaapi_encoders) := by
  constructor
  · simp [encoderGroupForMapping, encoderGroupForDefaults,
      VaapiEncoder.encoders, vaapi_encoders]
  · simp [VaapiEncoder.encoders, vaapi_encoders]

/-- Claim C6: in advanced mode, `custom_stream_mapping` maps the raw input
stream `0:v:{i}`, emits the codec selector pair followed by the
whitespace-split `custom_options` tokens, and leaves the mapper state
untouched (no filter chain is built). -/
theorem custom_stream_mapping_advanced (st : Mapper) (i : Nat)
    (h : st.settings.mode = "advanced") :
    custom_stream_mapping st i =
      (st, { stream_mapping := ["-map", "0:v:" ++ toString i],
             stream_encoding := ["-c:v:" ++ toString i, st.settings.video_encoder] ++
               splitWhitespace st.settings.custom_options }) := by
  simp [custom_stream_mapping, h, zeroV_append, cV_append]

/-- Witness for C6 on stream index 2 with custom options `-preset fast`. -/
theorem custom_stream_mapping_advanced_witness :
    custom_stream_mapping advMapper 2 =
      (advMapper,
       { stream_mapping := ["-map", "0:v:2"],
         stream_encoding := ["-c:v:2", "libx265", "-preset", "fast"] }) :=
  (custom_stream_mapping_advanced advMapper 2 rfl).trans (by decide)

/-- Claim C5: in advanced mode `set_default_values` overrides the main and
advanced token lists with the whitespace-split user options (an empty
option string preserves the existing tokens) and consults nothing else:
crop detection, the muxing-queue argument, and the encoder-profile default
maps are all untouched. -/
theorem set_default_values_advanced (st : Mapper) (s : Settings) (p d : String)
    (h : s.mode = "advanced") :
    set_default_values st s p d =
      { st with
        settings := s
        abspath := some p
        main_tokens :=
          if splitWhitespace s.main_options ≠ [] then splitWhitespace s.main_options
          else st.main_tokens
        advanced_tokens :=
          if splitWhitespace s.advanced_options ≠ [] then splitWhitespace s.advanced_options
          else st.advanced_tokens } := by
  by_cases hm : splitWhitespace s.main_options = [] <;>
  by_cases ha : splitWhitespace s.advanced_options = [] <;>
    simp [set_default_values, h, hm, ha]

/-- Witness for C5: main options supplied, advanced options empty. -/
theorem set_default_values_advanced_witness :
    set_default_values baseMapper advTokenSettings "/tmp/in.mkv" "" =
      { baseMapper with
        settings := advTokenSettings
        abspath := some "/tmp/in.mkv"
        main_tokens := ["-probesize", "50M"] } :=
  (set_default_values_advanced baseMapper advTokenSettings "/tmp/in.mkv" "" rfl).trans
    (by decide)

/-- Merging encoder default arguments never touches the stored crop value. -/
theorem applyEncoderDefaultArgs_crop_value (s : Settings) (st : Mapper) :
    (applyEncoderDefaultArgs s st).crop_value = st.crop_value := by
  unfold applyEncoderDefaultArgs
  split
  · rfl
  split
  · rfl
  split
  · rfl
  · rfl

/-- The modelled encoder profiles carry no advanced default arguments, so
merging defaults leaves the advanced argument map unchanged. -/
theorem applyEncoderDefaultArgs_advanced_kv (s : Settings) (st : Mapper) :
    (applyEncoderDefaultArgs s st).advanced_kv = st.advanced_kv := by
  unfold applyEncoderDefaultArgs
  split
  · rfl
  split
  · rfl
  split
  · rfl
  · rfl

/-- Claim C9: in any mode that is neither advanced nor standard,
`set_default_values` still applies the default arguments of the matched encoder group; those
arguments (that branch sits outside the standard-mode guard), while the
crop detection result is never stored and the muxing-queue advanced
argument is never added. -/
theorem set_default_values_encoder_defaults_outside_standard
    (st : Mapper) (s : Settings) (p d : String)
    (h1 : s.mode ≠ "advanced") (h2 : s.mode ≠ "standard") :
    set_default_values st s p d =
      applyEncoderDefaultArgs s { st with settings := s, abspath := some p } ∧
    (set_default_values st s p d).crop_value = st.crop_value ∧
    List.lookup "-max_muxing_queue_size" (set_default_values st s p d).advanced_kv =
      List.lookup "-max_muxing_queue_size" st.advanced_kv := by
  have he : set_default_values st s p d =
      applyEncoderDefaultArgs s { st with settings := s, abspath := some p } := by
    simp [set_default_values, h1, h2]
  refine ⟨he, ?_, ?_⟩
  · rw [he, applyEncoderDefaultArgs_crop_value]
  · rw [he, applyEncoderDefaultArgs_advanced_kv]

/-- Witness for C9 at the unnamed mode `""` with a VAAPI encoder. -/
theorem set_default_values_encoder_defaults_outside_standard_witness :
    (set_default_values queueMapper otherModeSettings "/tmp/in.mkv" "100:100:0:0" =
      applyEncoderDefaultArgs otherModeSettings
        { queueMapper with settings := otherModeSettings, abspath := some "/tmp/in.mkv" }) ∧
    (set_default_values queueMapper otherModeSettings "/tmp/in.mkv" "100:100:0:0").crop_value
      = "" ∧
    List.lookup "-max_muxing_queue_size"
      (set_default_values queueMapper otherModeSettings "/tmp/in.mkv" "100:100:0:0").advanced_kv
      = some "77" := by
  have h := set_default_values_encoder_defaults_outside_standard
    queueMapper otherModeSettings "/tmp/in.mkv" "100:100:0:0" (by decide) (by decide)
  exact ⟨h.1, h.2.1.trans (by decide), h.2.2.trans (by decide)⟩

/-- Claim C2: with a VAAPI-group encoder, `build_filter_chain` sets the
generic option `-hwaccel_output_format=nv12` exactly when the assembled
software-filter list is non-empty; with zero software filters the generic
option map is left untouched. -/
theorem build_filter_chain_vaapi_nv12 (st : Mapper) (sid : Nat)
    (h : st.settings.video_encoder ∈ vaapi_encoders) :
    (build_filter_chain st sid).1.generic_kv =
      if softwareFiltersOf st.settings st.crop_value ≠ [] then
        setManyKV st.generic_kv [("-hwaccel_output_format", "nv12")]
      else st.generic_kv := by
  have hq : st.settings.video_encoder ∉ QsvEncoder.encoders := by
    simp only [vaapi_encoders, List.mem_cons, List.mem_singleton,
      List.not_mem_nil, or_false] at h
    rcases h with h | h <;> simp [QsvEncoder.encoders, h]
  by_cases hs : softwareFiltersOf st.settings st.crop_value = [] <;>
    simp [build_filter_chain, hardwareFiltersOf, hq, h, hs,
      VaapiEncoder.generate_filtergraphs, set_ffmpeg_generic_options]

/-- Witness for C2: VAAPI encoder with one crop software filter sets
`nv12`; VAAPI encoder with no software filters leaves the map alone. -/
theorem build_filter_chain_vaapi_nv12_witness :
    (build_filter_chain chainMapper 0).1.generic_kv =
      [("-hwaccel_output_format", "nv12")] ∧
    (build_filter_chain vaapiPlainMapper 0).1.generic_kv = [] := by
  constructor
  · exact (build_filter_chain_vaapi_nv12 chainMapper 0 (by decide)).trans (by decide)
  · exact (build_filter_chain_vaapi_nv12 vaapiPlainMapper 0 (by decide)).trans (by decide)

/-- Claim C3: in standard mode with smart filters and custom filters off and
an encoder in neither hardware group, `build_filter_chain` returns the
"no filter chain" result and leaves the state untouched, and
`custom_stream_mapping` maps the raw `0:v:{i}` input without registering a
`-filter_complex` advanced option. -/
theorem no_filters_no_chain (st : Mapper) (i : Nat)
    (h1 : st.settings.mode = "standard")
    (h2 : st.settings.apply_smart_filters = false)
    (h3 : st.settings.apply_custom_filters = false)
    (h4 : st.settings.video_encoder ∉ QsvEncoder.encoders)
    (h5 : st.settings.video_encoder ∉ vaapi_encoders) :
    build_filter_chain st i = (st, none) ∧
    (custom_stream_mapping st i).2.stream_mapping = ["-map", "0:v:" ++ toString i] ∧
    (custom_stream_mapping st i).1.advanced_kv = st.advanced_kv := by
  have hsw : softwareFiltersOf st.settings st.crop_value = [] := by
    simp [softwareFiltersOf, h2, h3]
  have hhw : hardwareFiltersOf st.settings = [] := by
    simp [hardwareFiltersOf, h4, h5]
  have hb : build_filter_chain st i = (st, none) := by
    simp [build_filter_chain, hsw, hhw, h5]
  have hmode : st.settings.mode ≠ "advanced" := by
    rw [h1]; decide
  refine ⟨hb, ?_, ?_⟩ <;>
    simp [custom_stream_mapping, hmode, hb, zeroV_append]

/-- Witness for C3: the baseline mapper (standard mode, no filters, libx265)
on stream index 1. -/
theorem no_filters_no_chain_witness :
    build_filter_chain baseMapper 1 = (baseMapper, none) ∧
    (custom_stream_mapping baseMapper 1).2.stream_mapping = ["-map", "0:v:1"] ∧
    (custom_stream_mapping baseMapper 1).1.advanced_kv = baseMapper.advanced_kv := by
  have h := no_filters_no_chain baseMapper 1 rfl rfl rfl (by decide) (by decide)
  exact ⟨h.1, h.2.1.trans (by decide), h.2.2⟩

/-- The returned pair of `build_filter_chain` depends only on the settings
and the cached crop value, both of which it never modifies. -/
theorem build_filter_chain_snd_congr (st st2 : Mapper) (sid : Nat)
    (h1 : st2.settings = st.settings) (h2 : st2.crop_value = st.crop_value) :
    (build_filter_chain st2 sid).2 = (build_filter_chain st sid).2 := by
  simp only [build_filter_chain, h1, h2]
  by_cases hc : softwareFiltersOf st.settings st.crop_value = [] ∧
      hardwareFiltersOf st.settings = [] <;>
    simp [hc]

/-- `build_filter_chain` never changes the stored settings. -/
theorem build_filter_chain_settings_eq (st : Mapper) (sid : Nat) :
    (build_filter_chain st sid).1.settings = st.settings := by
  simp only [build_filter_chain]
  by_cases hc : softwareFiltersOf st.settings st.crop_value = [] ∧
      hardwareFiltersOf st.settings = [] <;>
  by_cases hv : st.settings.video_encoder ∉ QsvEncoder.encoders ∧
      st.settings.video_encoder ∈ vaapi_encoders ∧
      softwareFiltersOf st.settings st.crop_value ≠ [] <;>
    simp [hc, hv, set_ffmpeg_generic_options]

/-- `build_filter_chain` never changes the cached crop value. -/
theorem build_filter_chain_crop_eq (st : Mapper) (sid : Nat) :
    (build_filter_chain st sid).1.crop_value = st.crop_value := by
  simp only [build_filter_chain]
  by_cases hc : softwareFiltersOf st.settings st.crop_value = [] ∧
      hardwareFiltersOf st.settings = [] <;>
  by_cases hv : st.settings.video_encoder ∉ QsvEncoder.encoders ∧
      st.settings.video_encoder ∈ vaapi_encoders ∧
      softwareFiltersOf st.settings st.crop_value ≠ [] <;>
    simp [hc, hv, set_ffmpeg_generic_options]

/-- Claim C7: calling `build_filter_chain` twice in succession (threading
the state) returns the same (final label, graph string) result both times:
its only side effect, setting a generic option, does not feed back into the
returned value. -/
theorem build_filter_chain_idempotent (st : Mapper) (sid : Nat) :
    (build_filter_chain (build_filter_chain st sid).1 sid).2 =
      (build_filter_chain st sid).2 :=
  build_filter_chain_snd_congr st (build_filter_chain st sid).1 sid
    (build_filter_chain_settings_eq st sid) (build_filter_chain_crop_eq st sid)

/-- Running the joining loop over a concatenation is running it over the
first list and then the second with the carried accumulator (which is
exactly what the two consecutive source loops do). -/
theorem chainFold_append (sid : Nat) (a b : List String) (acc : String × String × Nat) :
    chainFold sid (a ++ b) acc = chainFold sid b (chainFold sid a acc) := by
  induction a generalizing acc with
  | nil => rfl
  | cons f fs ih =>
    rcases acc with ⟨g, fid, c⟩
    simp only [List.cons_append, chainFold]
    exact ih _

/-- Prepending `{g};` to the first of a non-empty segment list commutes
with joining. -/
theorem joinSemi_glue (g seg : String) (rest : List String) :
    joinSemi ((g ++ (";" ++ seg)) :: rest) = g ++ (";" ++ joinSemi (seg :: rest)) := by
  cases rest with
  | nil => simp [joinSemi]
  | cons r rs => simp [joinSemi, String.append_assoc]

/-- The joining loop, started from a non-empty graph accumulator, produces
the `;`-join of the accumulator and the claimed segments, the last
generated label, and the advanced counter. -/
theorem chainFold_spec (sid : Nat) (fs : List String) :
    ∀ (g fid : String) (c : Nat), g ≠ "" →
    chainFold sid fs (g, fid, c) =
      (joinSemi (g :: specSegments sid fid c fs), lastLabel sid fid c fs, c + fs.length) := by
  induction fs with
  | nil =>
    intro g fid c hg
    simp [chainFold, specSegments, lastLabel, joinSemi]
  | cons f fs ih =>
    intro g fid c hg
    simp only [chainFold, hg, ite_true, String.append_assoc, ne_eq, not_false_eq_true]
    rw [ih _ _ _ (append_ne_empty_left g _ hg)]
    simp only [specSegments, lastLabel, joinSemi_glue, joinSemi, String.append_assoc,
      List.length_cons, Prod.mk.injEq]
    exact ⟨trivial, trivial, by omega⟩

/-- The label carried out of the loop is the one of the last generated
filter: `0:vf:{sid}-{c + length - 1}` for a non-empty filter list. -/
theorem lastLabel_concrete (sid : Nat) (fs : List String) :
    ∀ (fid : String) (c : Nat),
    lastLabel sid fid c fs = if fs.length = 0 then fid else vfLabel sid (c + fs.length - 1) := by
  induction fs with
  | nil => intro fid c; simp [lastLabel]
  | cons f fs ih =>
    intro fid c
    simp only [lastLabel, ih, List.length_cons]
    by_cases hl : fs.length = 0 <;> simp [hl]

/-- Claim C1: for any state assembling a non-empty combined filter list
(software filters followed by hardware filters, `n` in total),
`build_filter_chain` returns the `;`-joined segments
`[{currentLabel}]{filterExpr}[{nextLabel}]` starting from input label
`0:v:{sid}` with the Nth generated filter producing label `0:vf:{sid}-{N}`,
and the returned final label is `0:vf:{sid}-{n}`. -/
theorem build_filter_chain_label_chaining (st : Mapper) (sid : Nat)
    (h : softwareFiltersOf st.settings st.crop_value ++ hardwareFiltersOf st.settings ≠ []) :
    (build_filter_chain st sid).2 =
      some (vfLabel sid
              (softwareFiltersOf st.settings st.crop_value ++
                hardwareFiltersOf st.settings).length,
            joinSemi (specSegments sid ("0:v:" ++ toString sid) 1
              (softwareFiltersOf st.settings st.crop_value ++
                hardwareFiltersOf st.settings))) := by
  have hne : ¬(softwareFiltersOf st.settings st.crop_value = [] ∧
      hardwareFiltersOf st.settings = []) := by
    rintro ⟨a, b⟩
    exact h (by rw [a, b]; rfl)
  obtain ⟨f, fs, hc⟩ := List.exists_cons_of_ne_nil h
  simp only [build_filter_chain, if_neg hne, ← chainFold_append, hc]
  simp only [chainFold, ne_eq, not_true_eq_false, ite_false, String.empty_append,
    String.append_assoc]
  rw [chainFold_spec sid fs _ _ _ (append_ne_empty_left "[" _ (by decide))]
  have hlast : lastLabel sid (vfLabel sid 1) 2 fs = vfLabel sid (f :: fs).length := by
    rw [lastLabel_concrete]
    by_cases hl : fs.length = 0 <;> simp [hl]
    exact congrArg (vfLabel sid) (by omega)
  rw [hlast]
  simp [specSegments, String.append_assoc]

/-- Witness for C1: 2 software filters (crop + one custom line) and 1 VAAPI
hardware filter on stream index 3 produce the chained labels `0:v:3`,
`0:vf:3-1`, `0:vf:3-2`, `0:vf:3-3`, `;`-joined, hardware filter last. -/
theorem build_filter_chain_label_chaining_witness :
    (build_filter_chain chainMapper 3).2 =
      some ("0:vf:3-3",
        "[0:v:3]crop=1920:800:0:140[0:vf:3-1];[0:vf:3-1]hqdn3d[0:vf:3-2];[0:vf:3-2]format=nv12|vaapi,hwupload[0:vf:3-3]") := by
  have h := build_filter_chain_label_chaining chainMapper 3 (by decide)
  exact h.trans (by decide)

end VideoTranscoder
